import Mathlib

/-!
A shallow embedding of the connection layer of psycopg3
(src/psycopg3/psycopg3/connection.py) and proofs about it.

Modelling conventions:
* Python exceptions become an explicit error type; a method that can raise
  returns an Except value paired with its effects.
* The engine handle (pq.PGconn) is external: a method reads the pieces of
  handle state it consults (transaction status, the outcome of a send, the
  result list a wait would produce) as explicit parameters.
* The commands written to the socket are logged in a list of wire actions,
  so that claims about what is or is not sent become claims about that list.
* Locks serialize entry; in this sequential model taking a lock is a no-op.
-/

namespace Psycopg3

/-- Connection status reported by the handle (pq.ConnStatus; the code only
consults BAD, via the closed property). -/
inductive ConnStatus where
  | ok
  | bad
  | starting
deriving DecidableEq

/-- Transaction status reported by the handle (pq.TransactionStatus). -/
inductive TransactionStatus where
  | idle
  | active
  | intrans
  | inerror
  | unknown
deriving DecidableEq

/-- The Python enum member name, used in the autocommit error message
(TransactionStatus(status).name). -/
def TransactionStatus.name : TransactionStatus → String
  | .idle => "IDLE"
  | .active => "ACTIVE"
  | .intrans => "INTRANS"
  | .inerror => "INERROR"
  | .unknown => "UNKNOWN"

/-- Result status reported for one command (pq.ExecStatus; the code consults
COMMAND_OK and TUPLES_OK). -/
inductive ExecStatus where
  | emptyQuery
  | commandOk
  | tuplesOk
  | fatalError
  | nonfatalError
deriving DecidableEq

/-- One result produced by the handle, with the diagnostic text that
pq.error_message would extract from it. -/
structure PGresult where
  status : ExecStatus
  errorMessage : String
deriving DecidableEq

/-- The Python exceptions the modelled code can raise. -/
inductive PyErr where
  | operationalError (msg : String)
  | programmingError (msg : String)
  | notSupportedError (msg : String)
  | databaseError (msg : String)
  | attributeError (msg : String)
  | valueError (msg : String)
  | indexError (msg : String)
  | unicodeDecodeError (msg : String)
deriving DecidableEq

/-- Modelled from the spec: the failure taxonomy of the error-handling design.
A programming failure is a caller precondition violation, which covers both
the ProgrammingError raised for changing autocommit mid-transaction and the
AttributeError raised for calling an operation unsupported in the current
execution model (the synchronous setters of the cooperative variant). -/
def isProgrammingFailure : PyErr → Bool
  | .programmingError _ => true
  | .attributeError _ => true
  | _ => false

/-- pq.error_message applied to a result: the diagnostic text of the server. -/
def error_message (res : PGresult) : String := res.errorMessage

/-- An action on the socket: a command sent (with its parameter list), or a
read while waiting for results or notifications. -/
inductive WireAction where
  | send (cmd : String) (params : List String)
  | recv
deriving DecidableEq

/- ---------------------------------------------------------------------
Notice / notify dispatch (BaseConnection._notice_handler and
BaseConnection._notify_handler).

A registered handler is modelled by its observable behaviour: an identity
and whether invoking it raises. Dispatch returns which handlers were
invoked (in order), which failures were logged, and the exception, if any,
that escaped into the protocol step that triggered dispatch.
--------------------------------------------------------------------- -/

/-- The observable behaviour of one registered callback: an identity and
whether calling it raises. -/
structure HBeh where
  id : Nat
  fails : Bool
deriving DecidableEq

/-- What a dispatch invocation did: handlers invoked in order, failures
logged by package_logger.exception, and the exception (by handler id) that
escaped the callback, if any. -/
structure DispatchResult where
  invoked : List Nat
  logged : List Nat
  raised : Option Nat
deriving DecidableEq

/-- The loop of _notice_handler: each callback is invoked inside try/except,
a failure is logged and the loop continues. -/
def noticeLoop : List HBeh → List Nat × List Nat
  | [] => ([], [])
  | cb :: rest =>
    let r := noticeLoop rest
    (cb.id :: r.1, if cb.fails then cb.id :: r.2 else r.2)

/-- BaseConnection._notice_handler: the argument is the weak reference,
resolved to the registered notice handlers when the connection is alive.
The source guard tests self and self._notice_handler; the second conjunct
names the static method itself, which is always truthy, so only liveness is
really checked and an empty handler list falls through to a vacuous loop. -/
def BaseConnection._notice_handler (wself : Option (List HBeh)) : DispatchResult :=
  match wself with
  | none => ⟨[], [], none⟩
  | some hs =>
    let r := noticeLoop hs
    ⟨r.1, r.2, none⟩

/-- The loop of _notify_handler: each callback is invoked with no
try/except, so the first failure escapes and ends the loop. -/
def notifyLoop : List HBeh → List Nat × Option Nat
  | [] => ([], none)
  | cb :: rest =>
    if cb.fails then ([cb.id], some cb.id)
    else
      let r := notifyLoop rest
      (cb.id :: r.1, r.2)

/-- BaseConnection._notify_handler: the argument is the weak reference,
resolved to the registered notify handlers when the connection is alive.
The guard tests self and self._notify_handlers, so a dead reference or an
empty handler list returns at once. -/
def BaseConnection._notify_handler (wself : Option (List HBeh)) : DispatchResult :=
  match wself with
  | none => ⟨[], [], none⟩
  | some hs =>
    if hs = [] then ⟨[], [], none⟩
    else
      let r := notifyLoop hs
      ⟨r.1, [], r.2⟩

/- ---------------------------------------------------------------------
Transaction control and query start.

Each method reads the handle state it consults as parameters:
ts is pgconn.transaction_status at entry; send is the outcome of the
send_query call (ok when the command was queued, error when the handle
raised); results is the list that self.wait(execute(self.pgconn)) returns
when the send succeeded. The second component of each value is the list of
wire actions performed.
--------------------------------------------------------------------- -/

/-- Connection._exec_commit_rollback: no-op when idle; otherwise send the
command, wait, and fail if the status of the last result (results[-1]) is
not COMMAND_OK. An empty result list makes results[-1] an IndexError. -/
def Connection._exec_commit_rollback (command : String) (ts : TransactionStatus)
    (send : Except PyErr Unit) (results : List PGresult) :
    Except PyErr Unit × List WireAction :=
  if ts = .idle then (.ok (), [])
  else
    match send with
    | .error err => (.error err, [])
    | .ok () =>
      match results.getLast? with
      | none => (.error (.indexError "list index out of range"), [.send command [], .recv])
      | some last =>
        if last.status = .commandOk then (.ok (), [.send command [], .recv])
        else
          (.error (.operationalError
            ("error on " ++ command ++ ": " ++ error_message last)),
           [.send command [], .recv])

/-- AsyncConnection._exec_commit_rollback: no-op when idle; otherwise send
the command, wait, and destructure the result list into exactly one result
((pgres,) = ...); fail if its status is not COMMAND_OK. -/
def AsyncConnection._exec_commit_rollback (command : String) (ts : TransactionStatus)
    (send : Except PyErr Unit) (results : List PGresult) :
    Except PyErr Unit × List WireAction :=
  if ts = .idle then (.ok (), [])
  else
    match send with
    | .error err => (.error err, [])
    | .ok () =>
      match results with
      | [] =>
        (.error (.valueError "not enough values to unpack (expected 1, got 0)"),
         [.send command [], .recv])
      | [pgres] =>
        if pgres.status = .commandOk then (.ok (), [.send command [], .recv])
        else
          (.error (.operationalError
            ("error on " ++ command ++ ": " ++ error_message pgres)),
           [.send command [], .recv])
      | _ :: _ :: _ =>
        (.error (.valueError "too many values to unpack (expected 1)"),
         [.send command [], .recv])

/-- Connection._start_query: return at once when autocommit is set or the
transaction status is not idle; otherwise send a begin command, wait for
its single result and require COMMAND_OK. -/
def Connection._start_query (autocommit : Bool) (ts : TransactionStatus)
    (send : Except PyErr Unit) (results : List PGresult) :
    Except PyErr Unit × List WireAction :=
  if autocommit then (.ok (), [])
  else if ts ≠ .idle then (.ok (), [])
  else
    match send with
    | .error err => (.error err, [])
    | .ok () =>
      match results with
      | [] =>
        (.error (.valueError "not enough values to unpack (expected 1, got 0)"),
         [.send "begin" [], .recv])
      | [pgres] =>
        if pgres.status = .commandOk then (.ok (), [.send "begin" [], .recv])
        else
          (.error (.operationalError ("error on begin: " ++ error_message pgres)),
           [.send "begin" [], .recv])
      | _ :: _ :: _ =>
        (.error (.valueError "too many values to unpack (expected 1)"),
         [.send "begin" [], .recv])

/-- AsyncConnection._start_query: the same body as the blocking variant,
awaited instead of blocked on. -/
def AsyncConnection._start_query (autocommit : Bool) (ts : TransactionStatus)
    (send : Except PyErr Unit) (results : List PGresult) :
    Except PyErr Unit × List WireAction :=
  if autocommit then (.ok (), [])
  else if ts ≠ .idle then (.ok (), [])
  else
    match send with
    | .error err => (.error err, [])
    | .ok () =>
      match results with
      | [] =>
        (.error (.valueError "not enough values to unpack (expected 1, got 0)"),
         [.send "begin" [], .recv])
      | [pgres] =>
        if pgres.status = .commandOk then (.ok (), [.send "begin" [], .recv])
        else
          (.error (.operationalError ("error on begin: " ++ error_message pgres)),
           [.send "begin" [], .recv])
      | _ :: _ :: _ =>
        (.error (.valueError "too many values to unpack (expected 1)"),
         [.send "begin" [], .recv])

/-- BaseConnection._set_autocommit: refuse with a ProgrammingError while the
transaction status is not idle, leaving the flag as it was; otherwise store
the new value. Returns the outcome and the resulting autocommit flag. -/
def BaseConnection._set_autocommit (ts : TransactionStatus)
    (autocommit : Bool) (value : Bool) : Except PyErr Unit × Bool :=
  if ts ≠ .idle then
    (.error (.programmingError
      ("couldn't change autocommit state: connection in transaction status "
        ++ ts.name)),
     autocommit)
  else (.ok (), value)

/-- Connection._set_client_encoding: send the parameterized set_config
command, wait for its single result and require TUPLES_OK; any other status
becomes a failure built from the diagnostic of the result
(e.error_from_result). -/
def Connection._set_client_encoding (value : String)
    (send : Except PyErr Unit) (results : List PGresult) :
    Except PyErr Unit × List WireAction :=
  let q : WireAction :=
    .send "select set_config('client_encoding', $1, false)" [value]
  match send with
  | .error err => (.error err, [])
  | .ok () =>
    match results with
    | [] =>
      (.error (.valueError "not enough values to unpack (expected 1, got 0)"), [q, .recv])
    | [result] =>
      if result.status = .tuplesOk then (.ok (), [q, .recv])
      else (.error (.databaseError (error_message result)), [q, .recv])
    | _ :: _ :: _ =>
      (.error (.valueError "too many values to unpack (expected 1)"), [q, .recv])

/- ---------------------------------------------------------------------
The synchronous setters of the cooperative variant.
--------------------------------------------------------------------- -/

/-- AsyncConnection._set_client_encoding: raise at once; nothing is sent and
no state changes. -/
def AsyncConnection._set_client_encoding (_value : String) :
    Except PyErr Unit × List WireAction :=
  (.error (.attributeError
    ("'client_encoding' is read-only on async connections:"
      ++ " please use await .set_client_encoding() instead.")),
   [])

/-- AsyncConnection._set_autocommit: raise at once; the autocommit flag is
returned unchanged and nothing is sent. -/
def AsyncConnection._set_autocommit (autocommit : Bool) (_value : Bool) :
    Except PyErr Unit × Bool × List WireAction :=
  (.error (.attributeError
    ("autocommit is read-only on async connections:"
      ++ " please use await connection.set_autocommit() instead."
      ++ " Note that you can pass an 'autocommit' value to 'connect()'"
      ++ " if it doesn't need to change during the connection's lifetime.")),
   autocommit, [])

/- ---------------------------------------------------------------------
The client-encoding caches (BaseConnection.pyenc).
--------------------------------------------------------------------- -/

/-- BaseConnection.pyenc: codecs is the pq.py_codecs table (raw postgres
name to python codec name, both modelled as strings since only equality and
lookup matter); pgencCache and pyencCache are self._pgenc and self._pyenc;
server is pgconn.parameter_status applied to the client_encoding key.
Returns the outcome (the decoded name, or NotSupportedError when the table
has no entry) and the two caches afterwards. -/
def BaseConnection.pyenc (codecs : List (String × String))
    (pgencCache pyencCache : String) (server : Option String) :
    Except PyErr String × String × String :=
  let pgenc := server.getD ""
  if pgencCache ≠ pgenc then
    if pgenc ≠ "" then
      match codecs.lookup pgenc with
      | some py => (.ok py, pgenc, py)
      | none =>
        (.error (.notSupportedError
          ("encoding " ++ pgenc ++ " not available in Python")),
         pgencCache, pyencCache)
    else (.ok pyencCache, pgenc, pyencCache)
  else (.ok pyencCache, pgencCache, pyencCache)

/- ---------------------------------------------------------------------
The client_encoding read property, with the utf-8 decoding that
bytes.decode performs (bytes are lists of naturals below 256).
--------------------------------------------------------------------- -/

/-- Decode a byte list as utf-8 into the list of code points, rejecting
truncated sequences, bad continuation bytes, overlong forms, surrogates and
values above 0x10FFFF, as the Python strict utf-8 codec does. -/
def utf8DecodeCps : List Nat → Option (List Nat)
  | [] => some []
  | b :: rest =>
    if b < 0x80 then (utf8DecodeCps rest).map (b :: ·)
    else if b < 0xC2 then none
    else if b ≤ 0xDF then
      match rest with
      | c1 :: rest1 =>
        if 0x80 ≤ c1 ∧ c1 ≤ 0xBF then
          (utf8DecodeCps rest1).map (((b - 0xC0) * 0x40 + (c1 - 0x80)) :: ·)
        else none
      | [] => none
    else if b ≤ 0xEF then
      match rest with
      | c1 :: c2 :: rest2 =>
        let cp := (b - 0xE0) * 0x1000 + (c1 - 0x80) * 0x40 + (c2 - 0x80)
        if (0x80 ≤ c1 ∧ c1 ≤ 0xBF) ∧ (0x80 ≤ c2 ∧ c2 ≤ 0xBF)
            ∧ 0x800 ≤ cp ∧ (cp < 0xD800 ∨ 0xDFFF < cp) then
          (utf8DecodeCps rest2).map (cp :: ·)
        else none
      | _ => none
    else if b ≤ 0xF4 then
      match rest with
      | c1 :: c2 :: c3 :: rest3 =>
        let cp := (b - 0xF0) * 0x40000 + (c1 - 0x80) * 0x1000
          + (c2 - 0x80) * 0x40 + (c3 - 0x80)
        if (0x80 ≤ c1 ∧ c1 ≤ 0xBF) ∧ (0x80 ≤ c2 ∧ c2 ≤ 0xBF)
            ∧ (0x80 ≤ c3 ∧ c3 ≤ 0xBF) ∧ 0x10000 ≤ cp ∧ cp ≤ 0x10FFFF then
          (utf8DecodeCps rest3).map (cp :: ·)
        else none
      | _ => none
    else none

/-- bytes.decode with the utf-8 codec: the string of the decoded code
points, or none where the strict codec raises UnicodeDecodeError. -/
def utf8Decode (bs : List Nat) : Option String :=
  (utf8DecodeCps bs).map (fun cps => String.mk (cps.map Char.ofNat))

/-- BaseConnection.client_encoding (read): rv is what
pgconn.parameter_status returns for the client_encoding key. The source
returns the utf-8 decoding of rv when rv is truthy and the literal UTF8
otherwise; truthiness makes the empty byte string take the default branch
too, and decoding raises on bytes that are not valid utf-8. -/
def BaseConnection.client_encoding (rv : Option (List Nat)) : Except PyErr String :=
  match rv with
  | none => .ok "UTF8"
  | some bs =>
    if bs = [] then .ok "UTF8"
    else
      match utf8Decode bs with
      | some s => .ok s
      | none =>
        .error (.unicodeDecodeError "codec can't decode byte: invalid utf-8")

/- ---------------------------------------------------------------------
The engine handle, for the claims that quantify over a closed (Bad)
connection. The handle implementation (the pq module) is not part of the
repository sources here, so its behaviour on a Bad connection is modelled
from the spec.
--------------------------------------------------------------------- -/

/-- The handle state a connection method reads: the reported connection
status and, while the connection is usable, the reported transaction
status. -/
structure Handle where
  connStatus : ConnStatus
  tsReported : TransactionStatus
deriving DecidableEq

/-- Modelled from the spec: the engine handle's transaction-status view
(pq.PGconn.transaction_status, not under src/). On a Bad connection the
handle reports Unknown (the spec's transaction-status enum reserves Unknown
for exactly this: no usable server report). -/
def Handle.transaction_status (h : Handle) : TransactionStatus :=
  if h.connStatus = .bad then .unknown else h.tsReported

/-- Modelled from the spec: the engine handle's send operations
(pq.PGconn.send_query and send_query_params, not under src/). They queue
the command without blocking on a usable connection and fail on a Bad one
without touching the socket. -/
def Handle.sendOutcome (h : Handle) : Except PyErr Unit :=
  if h.connStatus = .bad then .error (.operationalError "the connection is closed")
  else .ok ()

/-- BaseConnection.closed: the connection status is BAD. -/
def BaseConnection.closed (h : Handle) : Bool :=
  h.connStatus = .bad

/-- Connection.commit against a handle: take the lock and run
_exec_commit_rollback with the commit command, reading the transaction
status and the send outcome from the handle. -/
def Connection.commit (h : Handle) (results : List PGresult) :
    Except PyErr Unit × List WireAction :=
  Connection._exec_commit_rollback "commit" h.transaction_status h.sendOutcome results

/-- Connection.rollback against a handle. -/
def Connection.rollback (h : Handle) (results : List PGresult) :
    Except PyErr Unit × List WireAction :=
  Connection._exec_commit_rollback "rollback" h.transaction_status h.sendOutcome results

/-- Connection._start_query against a handle. -/
def Connection.start_query_on (h : Handle) (autocommit : Bool)
    (results : List PGresult) : Except PyErr Unit × List WireAction :=
  Connection._start_query autocommit h.transaction_status h.sendOutcome results

/-- Connection._set_client_encoding against a handle. -/
def Connection.set_client_encoding_on (h : Handle) (value : String)
    (results : List PGresult) : Except PyErr Unit × List WireAction :=
  Connection._set_client_encoding value h.sendOutcome results

/-- An asynchronous notification received from the database, decoded. -/
structure Notify where
  channel : String
  payload : String
  pid : Nat
deriving DecidableEq

/-- A raw notification as the handle delivers it: channel and payload as
byte lists, plus the backend pid. -/
structure RawNotify where
  relname : List Nat
  extra : List Nat
  be_pid : Nat
deriving DecidableEq

/-- Modelled from the spec: waiting on the pending-notifications operation
of the handle (generators.notifies, not under src/). On a usable connection
it reads the socket and returns the batch; on a Bad connection it fails
without socket I/O. -/
def Handle.notifiesWait (h : Handle) (pending : List RawNotify) :
    Except PyErr (List RawNotify) × List WireAction :=
  if h.connStatus = .bad then
    (.error (.operationalError "the connection is closed"), [])
  else (.ok pending, [.recv])

/-- One iteration of the Connection.notifies loop: take the lock, wait for
a batch and decode each notification with the cached client encoding (the
decoder of self._pyenc is passed in as a function). -/
def Connection.notifies_once (h : Handle) (pending : List RawNotify)
    (dec : List Nat → String) : Except PyErr (List Notify) × List WireAction :=
  match h.notifiesWait pending with
  | (.error err, w) => (.error err, w)
  | (.ok ns, w) =>
    (.ok (ns.map (fun pgn => ⟨dec pgn.relname, dec pgn.extra, pgn.be_pid⟩)), w)

/- ---------------------------------------------------------------------
Theorems.
--------------------------------------------------------------------- -/

/-- The notice loop invokes every handler in order and logs exactly the
failing ones. -/
theorem noticeLoop_eq (hs : List HBeh) :
    noticeLoop hs = (hs.map (·.id), (hs.filter (·.fails)).map (·.id)) := by
  induction hs with
  | nil => rfl
  | cons cb rest ih =>
    simp only [noticeLoop, ih, List.map_cons, List.filter_cons]
    cases hcb : cb.fails <;> simp [hcb]

/-- The notify loop invokes handlers in order up to and including the first
failing one, whose exception escapes. -/
theorem notifyLoop_eq (hs : List HBeh) :
    notifyLoop hs
      = ((hs.takeWhile (fun h => !h.fails)).map (·.id)
          ++ ((hs.find? (·.fails)).map (·.id)).toList,
        (hs.find? (·.fails)).map (·.id)) := by
  induction hs with
  | nil => rfl
  | cons cb rest ih =>
    cases hcb : cb.fails
    · simp [notifyLoop, hcb, ih, List.takeWhile_cons, List.find?_cons]
    · simp [notifyLoop, hcb, List.takeWhile_cons, List.find?_cons]

/-- C1: the claim, as stated, is false for notify dispatch: with handlers
A (id 0, raises) and B (id 1, does not) registered in that order, a live
connection invokes only A, B never runs, and the exception of A escapes
into the protocol step instead of being caught and logged. -/
theorem C1_notify_escape_counterexample :
    BaseConnection._notify_handler (some [⟨0, true⟩, ⟨1, false⟩])
      = ⟨[0], [], some 0⟩
    ∧ (BaseConnection._notify_handler (some [⟨0, true⟩, ⟨1, false⟩])).invoked ≠ [0, 1]
    ∧ (BaseConnection._notify_handler (some [⟨0, true⟩, ⟨1, false⟩])).raised ≠ none := by
  decide

/-- C1 (amended): notice dispatch invokes every registered handler in
registration order, logs each failure and lets none escape; notify dispatch
invokes handlers in registration order only up to the first failing one,
logs nothing, and the first failure escapes into the protocol step (when no
handler fails, every handler runs in order and nothing escapes). -/
theorem C1_dispatch_isolation :
    ∀ hs : List HBeh,
      BaseConnection._notice_handler (some hs)
        = ⟨hs.map (·.id), (hs.filter (·.fails)).map (·.id), none⟩
      ∧ (BaseConnection._notify_handler (some hs)).invoked
          = (hs.takeWhile (fun h => !h.fails)).map (·.id)
            ++ ((hs.find? (·.fails)).map (·.id)).toList
      ∧ (BaseConnection._notify_handler (some hs)).raised
          = (hs.find? (·.fails)).map (·.id)
      ∧ (BaseConnection._notify_handler (some hs)).logged = [] := by
  intro hs
  refine ⟨?_, ?_, ?_, ?_⟩
  · simp [BaseConnection._notice_handler, noticeLoop_eq]
  · cases hs with
    | nil => rfl
    | cons cb rest => simp [BaseConnection._notify_handler, notifyLoop_eq]
  · cases hs with
    | nil => rfl
    | cons cb rest => simp [BaseConnection._notify_handler, notifyLoop_eq]
  · cases hs with
    | nil => rfl
    | cons cb rest => simp [BaseConnection._notify_handler, notifyLoop_eq]

/-- C7: when the weak reference no longer resolves, or the connection has
no registered handlers of the relevant kind, the handle-level callbacks
invoke nothing, log nothing and raise nothing; holding only an optional
(weak) view of the connection is what makes the callback unable to keep it
alive. -/
theorem C7_dead_ref_or_no_handlers :
    BaseConnection._notice_handler none = ⟨[], [], none⟩
    ∧ BaseConnection._notify_handler none = ⟨[], [], none⟩
    ∧ BaseConnection._notice_handler (some []) = ⟨[], [], none⟩
    ∧ BaseConnection._notify_handler (some []) = ⟨[], [], none⟩ := by
  decide

/-- C2: for both variants, with the transaction status idle, commit and
rollback send nothing and change nothing; otherwise the command goes out
and, for the single result the handle produces for it, a status other than
command-success raises an operational failure carrying the diagnostic text
of the server, while command-success succeeds. -/
theorem C2_commit_rollback_outcome :
    ∀ (command : String) (ts : TransactionStatus) (r : PGresult),
      Connection._exec_commit_rollback command ts (.ok ()) [r]
        = (if ts = .idle then ((.ok (), []) : Except PyErr Unit × List WireAction)
           else
             ((if r.status = .commandOk then .ok ()
               else .error (.operationalError
                 ("error on " ++ command ++ ": " ++ error_message r))),
              [.send command [], .recv]))
      ∧ AsyncConnection._exec_commit_rollback command ts (.ok ()) [r]
        = (if ts = .idle then ((.ok (), []) : Except PyErr Unit × List WireAction)
           else
             ((if r.status = .commandOk then .ok ()
               else .error (.operationalError
                 ("error on " ++ command ++ ": " ++ error_message r))),
              [.send command [], .recv])) := by
  intro command ts r
  constructor
  · by_cases hts : ts = .idle
    · simp [Connection._exec_commit_rollback, hts]
    · by_cases hr : r.status = .commandOk <;>
        simp [Connection._exec_commit_rollback, hts, hr]
  · by_cases hts : ts = .idle
    · simp [AsyncConnection._exec_commit_rollback, hts]
    · by_cases hr : r.status = .commandOk <;>
        simp [AsyncConnection._exec_commit_rollback, hts, hr]

/-- C3: changing autocommit while the transaction status is not idle raises
a ProgrammingError and leaves the flag as it was; while idle the new value
is stored. -/
theorem C3_autocommit_guard :
    ∀ (ts : TransactionStatus) (ac v : Bool),
      BaseConnection._set_autocommit ts ac v
        = if ts = .idle then (.ok (), v)
          else
            (.error (.programmingError
              ("couldn't change autocommit state: connection in transaction status "
                ++ ts.name)),
             ac) := by
  intro ts ac v
  by_cases h : ts = .idle <;> simp [BaseConnection._set_autocommit, h]

/-- C4: both variants of _start_query put a begin command on the wire
exactly when autocommit is off and the transaction status is idle; in every
other case nothing is sent and the call returns without error. -/
theorem C4_start_query_begin_iff :
    ∀ (ac : Bool) (ts : TransactionStatus) (results : List PGresult),
      ((Connection._start_query ac ts (.ok ()) results).2
          = if ac = false ∧ ts = .idle then [.send "begin" [], .recv] else [])
      ∧ (if ac = false ∧ ts = .idle then True
         else Connection._start_query ac ts (.ok ()) results = (.ok (), []))
      ∧ ((AsyncConnection._start_query ac ts (.ok ()) results).2
          = if ac = false ∧ ts = .idle then [.send "begin" [], .recv] else [])
      ∧ (if ac = false ∧ ts = .idle then True
         else AsyncConnection._start_query ac ts (.ok ()) results = (.ok (), [])) := by
  intro ac ts results
  cases ac with
  | true =>
    simp [Connection._start_query, AsyncConnection._start_query]
  | false =>
    by_cases hts : ts = .idle
    · simp only [Connection._start_query, AsyncConnection._start_query, hts]
      rcases results with _ | ⟨r, _ | ⟨r2, rest⟩⟩
      · simp
      · by_cases hr : r.status = .commandOk <;> simp [hr]
      · simp
    · simp [Connection._start_query, AsyncConnection._start_query, hts]

/-- C9: on the transaction statuses, send outcomes and single-result
sequences the handle produces for a commit or rollback command, the
blocking and cooperative variants return identical outcomes and identical
wire traffic: they send the same command and agree on success versus
operational failure, decided by the status of that result. -/
theorem C9_variants_agree :
    ∀ (command : String) (ts : TransactionStatus) (send : Except PyErr Unit)
      (r : PGresult),
      Connection._exec_commit_rollback command ts send [r]
        = AsyncConnection._exec_commit_rollback command ts send [r] := by
  intro command ts send r
  by_cases hts : ts = .idle
  · simp [Connection._exec_commit_rollback, AsyncConnection._exec_commit_rollback, hts]
  · cases send <;>
      simp [Connection._exec_commit_rollback, AsyncConnection._exec_commit_rollback, hts]

/-- C5: the claim, as stated, is false for _start_query: on a connection
whose status is Bad (so the handle reports transaction status Unknown),
_start_query with autocommit off returns successfully and sends nothing —
it does not fail at all, let alone fail fast. -/
theorem C5_start_query_on_closed_silent :
    Connection.start_query_on ⟨.bad, .idle⟩ false [] = (.ok (), []) := by
  rfl

/-- C5 (amended): on a connection whose status is Bad, commit, rollback,
set-client-encoding and the notifies wait all fail fast — the handle
refuses the send or the wait before any socket I/O — while _start_query
neither fails nor sends: its transaction-status check (Unknown on a Bad
connection) short-circuits and it returns successfully. -/
theorem C5_closed_connection_operations :
    ∀ (ts : TransactionStatus) (results : List PGresult) (value : String)
      (pending : List RawNotify) (dec : List Nat → String) (ac : Bool),
      Connection.commit ⟨.bad, ts⟩ results
        = (.error (.operationalError "the connection is closed"), [])
      ∧ Connection.rollback ⟨.bad, ts⟩ results
        = (.error (.operationalError "the connection is closed"), [])
      ∧ Connection.set_client_encoding_on ⟨.bad, ts⟩ value results
        = (.error (.operationalError "the connection is closed"), [])
      ∧ Connection.notifies_once ⟨.bad, ts⟩ pending dec
        = (.error (.operationalError "the connection is closed"), [])
      ∧ Connection.start_query_on ⟨.bad, ts⟩ ac results = (.ok (), [])
      ∧ BaseConnection.closed ⟨.bad, ts⟩ = true := by
  intro ts results value pending dec ac
  refine ⟨?_, ?_, ?_, ?_, ?_, rfl⟩
  · simp [Connection.commit, Connection._exec_commit_rollback,
      Handle.transaction_status, Handle.sendOutcome]
  · simp [Connection.rollback, Connection._exec_commit_rollback,
      Handle.transaction_status, Handle.sendOutcome]
  · simp [Connection.set_client_encoding_on, Connection._set_client_encoding,
      Handle.sendOutcome]
  · simp [Connection.notifies_once, Handle.notifiesWait]
  · cases ac <;>
      simp [Connection.start_query_on, Connection._start_query,
        Handle.transaction_status, Handle.sendOutcome]

/-- C6: reading pyenc with the server-reported raw value equal to the
cached raw value recomputes nothing and changes nothing; with a different,
non-empty reported value the decoded name is recomputed through the codec
table, and when the table has no entry a NotSupportedError is raised and
both caches — in particular the previously decoded encoding — stay as they
were, never silently defaulted. -/
theorem C6_encoding_cache :
    ∀ (codecs : List (String × String)) (pgencCache pyencCache enc : String),
      BaseConnection.pyenc codecs pgencCache pyencCache (some pgencCache)
        = (.ok pyencCache, pgencCache, pyencCache)
      ∧ (if pgencCache = enc ∨ enc = "" then True
         else
           match codecs.lookup enc with
           | some py =>
             BaseConnection.pyenc codecs pgencCache pyencCache (some enc)
               = (.ok py, enc, py)
           | none =>
             BaseConnection.pyenc codecs pgencCache pyencCache (some enc)
               = (.error (.notSupportedError
                   ("encoding " ++ enc ++ " not available in Python")),
                  pgencCache, pyencCache)) := by
  intro codecs pgencCache pyencCache enc
  constructor
  · simp [BaseConnection.pyenc]
  · by_cases h : pgencCache = enc ∨ enc = ""
    · simp [h]
    · push_neg at h
      cases hl : codecs.lookup enc <;>
        simp [BaseConnection.pyenc, h.1, h.2, hl, Option.getD]

/-- C8: on the cooperative variant the synchronous autocommit setter and
the synchronous client_encoding setter raise at once — a programming
failure in the sense of the error taxonomy of the spec — with a message
directing the caller to the explicit asynchronous setter; nothing reaches
the network and the connection state is unchanged. -/
theorem C8_async_sync_setters_fail_fast :
    ∀ (ac v : Bool) (s : String),
      AsyncConnection._set_autocommit ac v
        = (.error (.attributeError
            ("autocommit is read-only on async connections:"
              ++ " please use await connection.set_autocommit() instead."
              ++ " Note that you can pass an 'autocommit' value to 'connect()'"
              ++ " if it doesn't need to change during the connection's lifetime.")),
           ac, [])
      ∧ (AsyncConnection._set_autocommit ac v).1.isOk = false
      ∧ AsyncConnection._set_client_encoding s
          = (.error (.attributeError
              ("'client_encoding' is read-only on async connections:"
                ++ " please use await .set_client_encoding() instead.")),
             [])
      ∧ (match (AsyncConnection._set_autocommit ac v).1 with
         | .error err => isProgrammingFailure err
         | .ok _ => false) = true
      ∧ (match (AsyncConnection._set_client_encoding s).1 with
         | .error err => isProgrammingFailure err
         | .ok _ => false) = true := by
  intro ac v s
  exact ⟨rfl, rfl, rfl, rfl, rfl⟩

/-- C10: the claim, as stated, is false when the handle reports the empty
byte string for client_encoding: that is a reported value, and its utf-8
decoding is the empty string, yet the property returns the default UTF8
(the source tests Python truthiness, which conflates the empty value with
no value). -/
theorem C10_empty_value_defaults :
    BaseConnection.client_encoding (some []) = .ok "UTF8"
    ∧ utf8Decode [] = some ""
    ∧ ("UTF8" : String) ≠ "" := by
  refine ⟨rfl, rfl, by decide⟩

/-- C10 (amended): reading client_encoding returns the reported value
decoded as utf-8 when the handle reports a non-empty value (raising a
decode failure when the bytes are not valid utf-8), and returns the
default UTF8 when the handle reports no value at all or the empty value. -/
theorem C10_client_encoding_read :
    ∀ bs : List Nat,
      BaseConnection.client_encoding none = .ok "UTF8"
      ∧ BaseConnection.client_encoding (some []) = .ok "UTF8"
      ∧ (if bs = [] then True
         else
           match utf8Decode bs with
           | some s => BaseConnection.client_encoding (some bs) = .ok s
           | none =>
             BaseConnection.client_encoding (some bs)
               = .error (.unicodeDecodeError
                   "codec can't decode byte: invalid utf-8")) := by
  intro bs
  refine ⟨rfl, rfl, ?_⟩
  by_cases h : bs = []
  · simp [h]
  · cases hd : utf8Decode bs <;>
      simp [BaseConnection.client_encoding, h, hd]

end Psycopg3
